import Mathlib

/-!
Verification of the sidecar process supervisor in
`src/desktop/src-tauri/src/lib.rs`.

The supervisor owns a `SidecarState` (a mutex around an optional child
process handle) and exposes three commands (`start_sidecar`, `stop_sidecar`,
`sidecar_status`) plus a tray menu whose "quit" branch kills the child before
exiting.  The embedding below models the state as an `Option` of an abstract
process handle; every OS interaction (resolving the bundled executable,
spawning, killing) is supplied as an explicit environment argument, and each
command handler is a pure function from state and environment to result and
new state.  The `start_sidecar` body is not atomic in the source — the mutex
guard taken for the `is_some` check on line 31 is dropped before the spawn on
lines 35–42 and the store on line 44 — so a second, finer-grained interleaved
model (`raceStep`/`raceRun`) splits one invocation into its three atomic
sections to examine concurrent invocations.
-/

/-- Abstract identity of a spawned OS child process
(`tauri_plugin_shell::process::CommandChild` in the source). -/
structure ProcessHandle where
  pid : Nat
deriving DecidableEq

/-- The supervisor state (`struct SidecarState`, lib.rs line 11): an optional
exclusive owner of the child process handle.  The `Mutex` wrapper is modelled
by making each locked section an atomic step of the functions below. -/
structure SidecarState where
  child : Option ProcessHandle
deriving DecidableEq

/-- The status value object (`struct SidecarStatus`, lib.rs line 16). -/
structure SidecarStatus where
  running : Bool
  port : Nat
deriving DecidableEq

/-- Exit information carried by a `Terminated` event
(`tauri_plugin_shell::process::TerminatedPayload`: exit code and signal). -/
structure TerminatedPayload where
  code : Option Int
  signal : Option Int
deriving DecidableEq

/-- Events on the child's output channel
(`tauri_plugin_shell::process::CommandEvent`): stdout bytes, stderr bytes,
an error variant, and termination.  `cmdError` stands for the `Error(String)`
variant, which the relay's wildcard arm ignores. -/
inductive CommandEvent where
  | stdout (line : List Nat)
  | stderr (line : List Nat)
  | cmdError (msg : String)
  | terminated (status : TerminatedPayload)
deriving DecidableEq

/-- A line written to the host log: `info` for `println!` (the informational
sink), `errLog` for `eprintln!` (the error sink). -/
inductive LogEntry where
  | info (msg : String)
  | errLog (msg : String)
deriving DecidableEq

/-- Continuation byte test for UTF-8 (second to fourth byte of a sequence). -/
def isUtf8Cont (b : Nat) : Bool :=
  0x80 ≤ b && b ≤ 0xBF

/-- Valid second byte of a three-byte UTF-8 sequence with lead `b1`
(narrower ranges for `E0` and `ED` exclude overlong forms and surrogates). -/
def utf8Valid3Snd (b1 b2 : Nat) : Bool :=
  if b1 = 0xE0 then 0xA0 ≤ b2 && b2 ≤ 0xBF
  else if b1 = 0xED then 0x80 ≤ b2 && b2 ≤ 0x9F
  else isUtf8Cont b2

/-- Valid second byte of a four-byte UTF-8 sequence with lead `b1`
(narrower ranges for `F0` and `F4` exclude overlong forms and values above
`U+10FFFF`). -/
def utf8Valid4Snd (b1 b2 : Nat) : Bool :=
  if b1 = 0xF0 then 0x90 ≤ b2 && b2 ≤ 0xBF
  else if b1 = 0xF4 then 0x80 ≤ b2 && b2 ≤ 0x8F
  else isUtf8Cont b2

/-- The replacement character U+FFFD emitted for ill-formed input. -/
def replacementChar : Char := Char.ofNat 0xFFFD

/-- Modelled from the spec: the Rust standard library's
`String::from_utf8_lossy` (called on lines 52 and 56 of lib.rs, outside this
repository), which decodes a byte sequence as UTF-8, replacing each maximal
ill-formed subsequence with U+FFFD; it is total — malformed bytes never make
it fail. -/
def utf8LossyChars : List Nat → List Char
  | [] => []
  | b1 :: rest =>
    if b1 ≤ 0x7F then
      Char.ofNat b1 :: utf8LossyChars rest
    else if 0xC2 ≤ b1 && b1 ≤ 0xDF then
      match rest with
      | [] => [replacementChar]
      | b2 :: rest2 =>
        if isUtf8Cont b2 then
          Char.ofNat ((b1 % 0x20) * 0x40 + b2 % 0x40) :: utf8LossyChars rest2
        else
          replacementChar :: utf8LossyChars (b2 :: rest2)
    else if 0xE0 ≤ b1 && b1 ≤ 0xEF then
      match rest with
      | [] => [replacementChar]
      | b2 :: rest2 =>
        if utf8Valid3Snd b1 b2 then
          match rest2 with
          | [] => [replacementChar]
          | b3 :: rest3 =>
            if isUtf8Cont b3 then
              Char.ofNat ((b1 % 0x10) * 0x1000 + (b2 % 0x40) * 0x40 + b3 % 0x40)
                :: utf8LossyChars rest3
            else
              replacementChar :: utf8LossyChars (b3 :: rest3)
        else
          replacementChar :: utf8LossyChars (b2 :: rest2)
    else if 0xF0 ≤ b1 && b1 ≤ 0xF4 then
      match rest with
      | [] => [replacementChar]
      | b2 :: rest2 =>
        if utf8Valid4Snd b1 b2 then
          match rest2 with
          | [] => [replacementChar]
          | b3 :: rest3 =>
            if isUtf8Cont b3 then
              match rest3 with
              | [] => [replacementChar]
              | b4 :: rest4 =>
                if isUtf8Cont b4 then
                  Char.ofNat ((b1 % 8) * 0x40000 + (b2 % 0x40) * 0x1000
                      + (b3 % 0x40) * 0x40 + b4 % 0x40)
                    :: utf8LossyChars rest4
                else
                  replacementChar :: utf8LossyChars (b4 :: rest4)
            else
              replacementChar :: utf8LossyChars (b3 :: rest3)
        else
          replacementChar :: utf8LossyChars (b2 :: rest2)
    else
      replacementChar :: utf8LossyChars rest
termination_by l => l.length
decreasing_by all_goals simp_arith

/-- Lossy UTF-8 decoding of a byte list to a string. -/
def from_utf8_lossy (bytes : List Nat) : String :=
  String.mk (utf8LossyChars bytes)

/-- Debug rendering of an `Option` integer, as Rust's `{:?}` prints it. -/
def fmtOptInt : Option Int → String
  | none => "None"
  | some n => "Some(" ++ toString n ++ ")"

/-- Debug rendering of a `TerminatedPayload`, as the `{:?}` format on line 60
of lib.rs prints it. -/
def fmtTerminated (s : TerminatedPayload) : String :=
  "TerminatedPayload \x7b code: " ++ fmtOptInt s.code
    ++ ", signal: " ++ fmtOptInt s.signal ++ " \x7d"

/-- Outcome of the OS interactions performed by `start_sidecar` when no child
is present: `app.shell().sidecar("aimatrx-engine")` may fail (line 35–38),
`sidecar.spawn()` may fail (line 40–42), or the spawn succeeds and yields the
event receiver and the child handle. -/
inductive StartEnv where
  | sidecarCmdError (e : String)
  | spawnError (e : String)
  | spawnOk (child : ProcessHandle) (events : List CommandEvent)

/-- Everything observable about one `start_sidecar` call: the returned
`Result`, the state afterwards, whether an OS process was created, and the
event stream handed to the relay task (if one was started). -/
structure StartResult where
  result : Except String Unit
  state : SidecarState
  procSpawned : Bool
  relayEvents : Option (List CommandEvent)

/-- `start_sidecar` (lib.rs lines 26–69), sequential semantics: if a child
handle is already present return `Ok` at once; otherwise resolve and spawn
the sidecar, propagating either failure as a formatted error string and
leaving the state untouched; on success store the new handle and hand the
event stream to the relay task. -/
def start_sidecar (st : SidecarState) (env : StartEnv) : StartResult :=
  if st.child.isSome then
    { result := .ok (), state := st, procSpawned := false, relayEvents := none }
  else
    match env with
    | .sidecarCmdError e =>
      { result := .error ("Failed to create sidecar command: " ++ e)
        state := st, procSpawned := false, relayEvents := none }
    | .spawnError e =>
      { result := .error ("Failed to spawn sidecar: " ++ e)
        state := st, procSpawned := false, relayEvents := none }
    | .spawnOk child events =>
      { result := .ok (), state := { child := some child }
        procSpawned := true, relayEvents := some events }

/-- `stop_sidecar` (lib.rs lines 73–80): `take()` the handle out of the state;
if one was present issue `kill` (whose OS outcome is the `killResult`
argument), formatting a kill failure as an error string; with no handle it is
a no-op returning `Ok`.  The `take` happens before `kill`, so the state holds
no handle afterwards even when `kill` fails. -/
def stop_sidecar (st : SidecarState) (killResult : Except String Unit) :
    Except String Unit × SidecarState :=
  match st.child with
  | some _ =>
    match killResult with
    | .ok _ => (.ok (), { child := none })
    | .error e => (.error ("Failed to kill sidecar: " ++ e), { child := none })
  | none => (.ok (), st)

/-- `sidecar_status` (lib.rs lines 84–90): read `is_some` under the lock and
return `Ok` with `running` set accordingly and the fixed port 22140.  The
returned pair carries the state after the call, which the body never
writes. -/
def sidecar_status (st : SidecarState) : Except String SidecarStatus × SidecarState :=
  (.ok { running := st.child.isSome, port := 22140 }, st)

/-- The relay task body (lib.rs lines 47–66): drain the event channel in
order; a `Stdout` event is decoded lossily and printed to the informational
sink, a `Stderr` event to the error sink, the first `Terminated` event is
logged to the error sink and breaks the loop, and any other event is ignored
by the wildcard arm. -/
def relayRun : List CommandEvent → List LogEntry
  | [] => []
  | CommandEvent.stdout line :: rest =>
    LogEntry.info ("[engine] " ++ from_utf8_lossy line) :: relayRun rest
  | CommandEvent.stderr line :: rest =>
    LogEntry.errLog ("[engine] " ++ from_utf8_lossy line) :: relayRun rest
  | CommandEvent.terminated s :: _ =>
    [LogEntry.errLog ("[engine] Process terminated: " ++ fmtTerminated s)]
  | CommandEvent.cmdError _ :: rest => relayRun rest

/-- The relay task run next to a supervisor state: the closure spawned on
line 47 of lib.rs captures only the event receiver `rx`, never the
`SidecarState`, so running it returns the state it was started next to,
unchanged, together with the log it produced. -/
def relayTask (st : SidecarState) (events : List CommandEvent) :
    SidecarState × List LogEntry :=
  (st, relayRun events)

/-- What one `quit` tray-menu dispatch observable does (lib.rs lines
117–124): `take()` the handle from the state, best-effort `kill` it with the
result discarded by `let _ =`, then `app.exit(0)`. -/
structure QuitResult where
  state : SidecarState
  killIssued : Bool
  exitCode : Option Int
deriving DecidableEq

/-- The `"quit"` branch of the tray menu handler (lib.rs lines 117–124):
remove the handle, issue `kill` when one was present — ignoring the kill
outcome `killResult` — and exit the application with code 0. -/
def quit_menu_action (st : SidecarState) (killResult : Except String Unit) :
    QuitResult :=
  match st.child with
  | some _ => { state := { child := none }, killIssued := true, exitCode := some 0 }
  | none => { state := st, killIssued := false, exitCode := some 0 }

/-!
Interleaved model of concurrent `start_sidecar` invocations.

In the source, the body of `start_sidecar` consists of three sections with
respect to the `Mutex`: (a) line 31 locks, reads `is_some` and unlocks (the
guard is a temporary of the `if` condition); (b) lines 35–42 resolve and
spawn the sidecar with the lock released; (c) line 44 locks again and
unconditionally overwrites the option with `Some(child)`.  Tauri command
handlers run as tasks on a multi-threaded async runtime, so two invocations
may execute these sections interleaved; only (a) and (c) are atomic.  The
model below gives each invocation a phase and lets a schedule pick which
invocation executes its next atomic section. -/

/-- Phase of one in-flight `start_sidecar` invocation: `ready` before the
line-31 check; `returnedEarly` after the check saw `Some` and the call
returned `Ok`; `spawning` after the check saw `None`, about to run lines
35–42; `storing h` after spawning process `h`, about to run the line-44
store; `finished` after storing and returning `Ok`. -/
inductive InvPhase where
  | ready
  | returnedEarly
  | spawning
  | storing (h : ProcessHandle)
  | finished
deriving DecidableEq

/-- Global state of the interleaved model: the shared mutex contents, the
phase of each invocation, and every OS process spawned so far (no process in
this model is ever killed, so these are all live). -/
structure RaceState where
  shared : Option ProcessHandle
  invs : List InvPhase
  spawnedProcs : List ProcessHandle
deriving DecidableEq

/-- Execute the next atomic section of invocation `i` (no-op on an index with
no pending work).  `ready`: the locked `is_some` check of line 31.
`spawning`: lines 35–42, creating a fresh OS process outside the lock.
`storing h`: the locked unconditional overwrite of line 44. -/
def raceStep (g : RaceState) (i : Nat) : RaceState :=
  match g.invs.get? i with
  | some InvPhase.ready =>
    if g.shared.isSome then { g with invs := g.invs.set i InvPhase.returnedEarly }
    else { g with invs := g.invs.set i InvPhase.spawning }
  | some InvPhase.spawning =>
    let h : ProcessHandle := { pid := g.spawnedProcs.length }
    { g with invs := g.invs.set i (InvPhase.storing h)
             spawnedProcs := g.spawnedProcs ++ [h] }
  | some (InvPhase.storing h) =>
    { g with shared := some h, invs := g.invs.set i InvPhase.finished }
  | _ => g

/-- Run a schedule: a list of invocation indices, each executing one atomic
section in turn. -/
def raceRun (g : RaceState) (sched : List Nat) : RaceState :=
  sched.foldl raceStep g

/-- Initial state for `n` concurrent `start_sidecar` invocations on an empty
supervisor state. -/
def raceInit (n : Nat) : RaceState :=
  { shared := none, invs := List.replicate n InvPhase.ready, spawnedProcs := [] }

/-!
Spec-side characterization of the relay, used to compare `relayRun`
against the spec's description of the OutputRelay. -/

/-- The per-event forwarding the spec describes for the OutputRelay: a
stdout event goes to the informational sink and a stderr event to the error
sink, both decoded with lossy UTF-8 substitution; other non-termination
events produce no log line. -/
def eventLogOf : CommandEvent → Option LogEntry
  | CommandEvent.stdout line => some (LogEntry.info ("[engine] " ++ from_utf8_lossy line))
  | CommandEvent.stderr line => some (LogEntry.errLog ("[engine] " ++ from_utf8_lossy line))
  | _ => none

/-- `true` when a list of events holds no `Terminated` event. -/
def noTerminated (events : List CommandEvent) : Bool :=
  events.all fun e =>
    match e with
    | CommandEvent.terminated _ => false
    | _ => true

lemma noTerminated_cons (e : CommandEvent) (rest : List CommandEvent) :
    noTerminated (e :: rest) =
      ((match e with
        | CommandEvent.terminated _ => false
        | _ => true) && noTerminated rest) := by
  simp [noTerminated]

lemma relayRun_append (pre rest : List CommandEvent)
    (h : noTerminated pre = true) :
    relayRun (pre ++ rest) = pre.filterMap eventLogOf ++ relayRun rest := by
  induction pre with
  | nil => simp
  | cons e pre ih =>
    rw [noTerminated_cons] at h
    cases e with
    | stdout line =>
      simp only [Bool.true_and] at h
      simp [relayRun, eventLogOf, ih h]
    | stderr line =>
      simp only [Bool.true_and] at h
      simp [relayRun, eventLogOf, ih h]
    | cmdError msg =>
      simp only [Bool.true_and] at h
      simp [relayRun, eventLogOf, ih h]
    | terminated s => simp at h

/-!
Claim theorems. -/

/-- C1 (code bug evidence): the claim "for every pair of concurrent
invocations of start_sidecar on the same SidecarState, at most one of them
spawns a process" fails on the code.  The mutex guard of the line-31 check is
dropped before the spawn and the line-44 store, so in the schedule
`[0, 1, 0, 1, 0, 1]` both invocations pass the check while the state is still
empty, both spawn, both finish, two live OS processes exist, and the second
store overwrites the first handle — leaving process `pid 0` live but
untracked by the state. -/
theorem start_race_double_spawn :
    (raceRun (raceInit 2) [0, 1, 0, 1, 0, 1]).spawnedProcs.length = 2
    ∧ (raceRun (raceInit 2) [0, 1, 0, 1, 0, 1]).invs
        = [InvPhase.finished, InvPhase.finished]
    ∧ (raceRun (raceInit 2) [0, 1, 0, 1, 0, 1]).shared = some { pid := 1 }
    ∧ { pid := 0 } ∈ (raceRun (raceInit 2) [0, 1, 0, 1, 0, 1]).spawnedProcs
    ∧ ¬(raceRun (raceInit 2) [0, 1, 0, 1, 0, 1]).spawnedProcs.length ≤ 1 := by
  decide

/-- C2: when a ProcessHandle is already present, `start_sidecar` returns
success immediately, spawns nothing and leaves the state unchanged; and two
sequential start calls (the second issued on the state left by a successful
first) spawn exactly one process in total, with the second call succeeding
without spawning. -/
theorem start_sidecar_idempotent :
    (∀ (st : SidecarState) (env : StartEnv), st.child.isSome = true →
      (start_sidecar st env).result = Except.ok ()
      ∧ (start_sidecar st env).state = st
      ∧ (start_sidecar st env).procSpawned = false)
    ∧ (∀ (st : SidecarState) (child : ProcessHandle) (events : List CommandEvent)
        (env2 : StartEnv), st.child = none →
      (start_sidecar st (StartEnv.spawnOk child events)).result = Except.ok ()
      ∧ (start_sidecar st (StartEnv.spawnOk child events)).procSpawned = true
      ∧ (start_sidecar st (StartEnv.spawnOk child events)).state.child = some child
      ∧ (start_sidecar (start_sidecar st (StartEnv.spawnOk child events)).state env2).result
          = Except.ok ()
      ∧ (start_sidecar (start_sidecar st (StartEnv.spawnOk child events)).state env2).procSpawned
          = false
      ∧ (start_sidecar (start_sidecar st (StartEnv.spawnOk child events)).state env2).state
          = (start_sidecar st (StartEnv.spawnOk child events)).state) := by
  constructor
  · intro st env h
    simp [start_sidecar, h]
  · intro st child events env2 h
    simp [start_sidecar, h]

/-- Witness for C2 at concrete inputs: a state already holding `pid 5` is a
no-op even when the environment would fail, and a fresh start on the empty
state spawns. -/
theorem start_sidecar_idempotent_witness :
    ((start_sidecar { child := some { pid := 5 } } (StartEnv.spawnError "x")).result
        = Except.ok ()
      ∧ (start_sidecar { child := some { pid := 5 } } (StartEnv.spawnError "x")).state
          = { child := some { pid := 5 } }
      ∧ (start_sidecar { child := some { pid := 5 } } (StartEnv.spawnError "x")).procSpawned
          = false)
    ∧ (start_sidecar { child := none } (StartEnv.spawnOk { pid := 0 } [])).procSpawned = true :=
  ⟨start_sidecar_idempotent.1 { child := some { pid := 5 } } (StartEnv.spawnError "x") rfl,
   (start_sidecar_idempotent.2 { child := none } { pid := 0 } []
      (StartEnv.sidecarCmdError "y") rfl).2.1⟩

/-- C3: with no handle present, a failure to resolve or to spawn the sidecar
makes `start_sidecar` return the descriptive formatted error string, spawn
nothing, and leave the state exactly as it was (hence empty), so
`sidecar_status` reports `running = false` afterwards. -/
theorem start_sidecar_failure_atomic (st : SidecarState) (e : String)
    (h : st.child = none) :
    (start_sidecar st (StartEnv.sidecarCmdError e)).result
        = Except.error ("Failed to create sidecar command: " ++ e)
    ∧ (start_sidecar st (StartEnv.sidecarCmdError e)).state = st
    ∧ (start_sidecar st (StartEnv.sidecarCmdError e)).procSpawned = false
    ∧ (sidecar_status (start_sidecar st (StartEnv.sidecarCmdError e)).state).1
        = Except.ok { running := false, port := 22140 }
    ∧ (start_sidecar st (StartEnv.spawnError e)).result
        = Except.error ("Failed to spawn sidecar: " ++ e)
    ∧ (start_sidecar st (StartEnv.spawnError e)).state = st
    ∧ (start_sidecar st (StartEnv.spawnError e)).procSpawned = false
    ∧ (sidecar_status (start_sidecar st (StartEnv.spawnError e)).state).1
        = Except.ok { running := false, port := 22140 } := by
  simp [start_sidecar, sidecar_status, h]

/-- Witness for C3 at the empty state and the OS message for a missing
executable. -/
theorem start_sidecar_failure_atomic_witness :
    (start_sidecar { child := none }
        (StartEnv.spawnError "No such file or directory (os error 2)")).result
      = Except.error ("Failed to spawn sidecar: "
          ++ "No such file or directory (os error 2)")
    ∧ (sidecar_status (start_sidecar { child := none }
        (StartEnv.spawnError "No such file or directory (os error 2)")).state).1
      = Except.ok { running := false, port := 22140 } :=
  ⟨(start_sidecar_failure_atomic { child := none }
      "No such file or directory (os error 2)" rfl).2.2.2.2.1,
   (start_sidecar_failure_atomic { child := none }
      "No such file or directory (os error 2)" rfl).2.2.2.2.2.2.2⟩

/-- C4: after `stop_sidecar` returns — success or kill-failure error — the
state holds no handle and `sidecar_status` reports `running = false`; when no
handle was present the call is a no-op returning success and the untouched
state; when a handle was present the kill outcome is propagated (formatted on
failure) while the state is cleared either way, because the `take` precedes
the `kill`. -/
theorem stop_sidecar_clears_state (st : SidecarState) (kr : Except String Unit) :
    (stop_sidecar st kr).2.child = none
    ∧ (sidecar_status (stop_sidecar st kr).2).1
        = Except.ok { running := false, port := 22140 }
    ∧ (st.child = none → stop_sidecar st kr = (Except.ok (), st))
    ∧ (st.child.isSome = true → kr = Except.ok () → (stop_sidecar st kr).1 = Except.ok ())
    ∧ (∀ e, st.child.isSome = true → kr = Except.error e →
        (stop_sidecar st kr).1 = Except.error ("Failed to kill sidecar: " ++ e)) := by
  obtain ⟨c⟩ := st
  cases c with
  | none => cases kr <;> simp [stop_sidecar, sidecar_status]
  | some h => cases kr <;> simp [stop_sidecar, sidecar_status]

/-- Witness for C4: stopping a state holding `pid 3` when the OS kill fails
still clears the state, and the error is surfaced formatted. -/
theorem stop_sidecar_clears_state_witness :
    (stop_sidecar { child := some { pid := 3 } } (Except.error "ESRCH")).2.child = none
    ∧ (stop_sidecar { child := some { pid := 3 } } (Except.error "ESRCH")).1
        = Except.error ("Failed to kill sidecar: " ++ "ESRCH")
    ∧ stop_sidecar { child := none } (Except.ok ())
        = (Except.ok (), { child := none }) :=
  ⟨(stop_sidecar_clears_state { child := some { pid := 3 } } (Except.error "ESRCH")).1,
   (stop_sidecar_clears_state { child := some { pid := 3 } }
      (Except.error "ESRCH")).2.2.2.2 "ESRCH" rfl rfl,
   (stop_sidecar_clears_state { child := none } (Except.ok ())).2.2.1 rfl⟩

/-- C5: `sidecar_status` returns `Ok` with `running` exactly the presence of
a handle in the state and the fixed port 22140, and it returns the state it
was given unchanged (read-only, derived on demand). -/
theorem sidecar_status_readonly (st : SidecarState) :
    sidecar_status st = (Except.ok { running := st.child.isSome, port := 22140 }, st)
    ∧ ((sidecar_status st).1 = Except.ok { running := true, port := 22140 }
        ↔ st.child.isSome = true) := by
  refine ⟨rfl, ?_⟩
  simp [sidecar_status]

/-- Witness for C5 at both concrete states. -/
theorem sidecar_status_readonly_witness :
    sidecar_status { child := none }
        = (Except.ok { running := false, port := 22140 }, { child := none })
    ∧ sidecar_status { child := some { pid := 9 } }
        = (Except.ok { running := true, port := 22140 }, { child := some { pid := 9 } }) :=
  ⟨(sidecar_status_readonly { child := none }).1,
   (sidecar_status_readonly { child := some { pid := 9 } }).1⟩

/-- C6: the relay forwards each stdout event to the informational sink and
each stderr event to the error sink, both decoded with total lossy UTF-8
substitution; the Error event kind is ignored and consumption continues; on
the first Terminated event it logs the exit status to the error sink and
stops consuming — events after it produce nothing. -/
theorem relay_forwards_and_stops (pre post : List CommandEvent)
    (s : TerminatedPayload) (h : noTerminated pre = true) :
    relayRun (pre ++ CommandEvent.terminated s :: post)
      = pre.filterMap eventLogOf
        ++ [LogEntry.errLog ("[engine] Process terminated: " ++ fmtTerminated s)]
    ∧ relayRun pre = pre.filterMap eventLogOf := by
  constructor
  · rw [relayRun_append pre (CommandEvent.terminated s :: post) h]
    rfl
  · have h2 := relayRun_append pre [] h
    simpa [relayRun] using h2

/-- Witness for C6: a stream with a valid stdout line, a malformed stderr
byte, an ignored Error event, then termination followed by an unconsumed
event. -/
theorem relay_forwards_and_stops_witness :
    relayRun ([CommandEvent.stdout [72, 105], CommandEvent.stderr [255],
        CommandEvent.cmdError "oops"]
        ++ CommandEvent.terminated { code := some 0, signal := none }
          :: [CommandEvent.stdout [66]])
      = [CommandEvent.stdout [72, 105], CommandEvent.stderr [255],
          CommandEvent.cmdError "oops"].filterMap eventLogOf
        ++ [LogEntry.errLog ("[engine] Process terminated: "
            ++ fmtTerminated { code := some 0, signal := none })] :=
  (relay_forwards_and_stops
    [CommandEvent.stdout [72, 105], CommandEvent.stderr [255], CommandEvent.cmdError "oops"]
    [CommandEvent.stdout [66]] { code := some 0, signal := none } rfl).1

/-- C7: the relay task never touches the supervisor state — after a
successful spawn, running the relay over the whole stream (ending in the
child's own Terminated event) leaves the handle present, `sidecar_status`
still reports `running = true`, and only an explicit `stop_sidecar` clears
it. -/
theorem relay_preserves_state (st : SidecarState) (child : ProcessHandle)
    (pre : List CommandEvent) (s : TerminatedPayload) (kr : Except String Unit)
    (h : st.child = none) :
    (relayTask (start_sidecar st (StartEnv.spawnOk child
        (pre ++ [CommandEvent.terminated s]))).state
        (pre ++ [CommandEvent.terminated s])).1.child = some child
    ∧ (sidecar_status (relayTask (start_sidecar st (StartEnv.spawnOk child
        (pre ++ [CommandEvent.terminated s]))).state
        (pre ++ [CommandEvent.terminated s])).1).1
        = Except.ok { running := true, port := 22140 }
    ∧ (stop_sidecar (relayTask (start_sidecar st (StartEnv.spawnOk child
        (pre ++ [CommandEvent.terminated s]))).state
        (pre ++ [CommandEvent.terminated s])).1 kr).2.child = none := by
  cases kr <;> simp [relayTask, start_sidecar, sidecar_status, stop_sidecar, h]

/-- Witness for C7: spawn `pid 7` on the empty state, let the relay drain a
stream ending in termination, observe the handle still present and the
subsequent stop clearing it. -/
theorem relay_preserves_state_witness :
    (relayTask (start_sidecar { child := none } (StartEnv.spawnOk { pid := 7 }
        ([CommandEvent.stdout [104]]
          ++ [CommandEvent.terminated { code := some 0, signal := none }]))).state
        ([CommandEvent.stdout [104]]
          ++ [CommandEvent.terminated { code := some 0, signal := none }])).1.child
      = some { pid := 7 } :=
  (relay_preserves_state { child := none } { pid := 7 } [CommandEvent.stdout [104]]
    { code := some 0, signal := none } (Except.ok ()) rfl).1

/-- C8: whenever `start_sidecar` returns success — via the already-present
no-op branch or via a successful spawn — a handle is present in the resulting
state and `sidecar_status` reports `running = true`. -/
theorem start_sidecar_ok_running (st : SidecarState) (env : StartEnv)
    (h : (start_sidecar st env).result = Except.ok ()) :
    (start_sidecar st env).state.child.isSome = true
    ∧ (sidecar_status (start_sidecar st env).state).1
        = Except.ok { running := true, port := 22140 } := by
  by_cases hc : st.child.isSome = true
  · constructor <;> simp [start_sidecar, sidecar_status, hc]
  · cases env with
    | sidecarCmdError e => exact absurd h (by simp [start_sidecar, hc])
    | spawnError e => exact absurd h (by simp [start_sidecar, hc])
    | spawnOk child events => constructor <;> simp [start_sidecar, sidecar_status, hc]

/-- Witness for C8: a successful fresh spawn leaves a handle present. -/
theorem start_sidecar_ok_running_witness :
    (start_sidecar { child := none }
        (StartEnv.spawnOk { pid := 2 } [])).state.child.isSome = true
    ∧ (sidecar_status (start_sidecar { child := none }
        (StartEnv.spawnOk { pid := 2 } [])).state).1
        = Except.ok { running := true, port := 22140 } :=
  start_sidecar_ok_running { child := none } (StartEnv.spawnOk { pid := 2 } []) rfl

/-- C9: the tray "quit" branch removes the handle from the state, issues kill
exactly when a handle was present, ignores the kill outcome (the result is
the same for any kill outcome), exits the application with code 0, and its
effect on the state coincides with the supervisor's `stop_sidecar`. -/
theorem quit_kills_then_exits (st : SidecarState) (kr kr2 : Except String Unit) :
    (quit_menu_action st kr).state.child = none
    ∧ (quit_menu_action st kr).killIssued = st.child.isSome
    ∧ (quit_menu_action st kr).exitCode = some 0
    ∧ quit_menu_action st kr = quit_menu_action st kr2
    ∧ (quit_menu_action st kr).state = (stop_sidecar st kr).2 := by
  obtain ⟨c⟩ := st
  cases c with
  | none => simp [quit_menu_action, stop_sidecar]
  | some h => cases kr <;> simp [quit_menu_action, stop_sidecar]

/-- C10: `sidecar_status` never takes the error branch of its interface
type: on every state it returns `Ok` with the derived status value. -/
theorem sidecar_status_never_errors (st : SidecarState) :
    ∃ v, (sidecar_status st).1 = Except.ok v
      ∧ v = { running := st.child.isSome, port := 22140 } :=
  ⟨{ running := st.child.isSome, port := 22140 }, rfl, rfl⟩
